import Mathlib

/-!
Shallow embedding of `src/frontend-new/src/components/Settings/SettingsPage.tsx`:
the modal settings editor (settings store, tab router, update merger, reload
policy).  The component's asynchronous handlers are modelled as pure functions
from the pre-state and the outcome of the awaited service call to the
post-state together with the list of observable effects they emit; the JSX
render is modelled as a pure function from state to a view tree retaining the
structure the specification talks about (spinner vs. page, sidebar tab
buttons, which editor is rendered with which props).
-/

/-- Modelled from the spec: `UserSettings.credentials` (data-source connection
info).  The type lives in `@/types/settings`, which is outside `src/`; the
component treats the slice as an opaque payload, so it is modelled as one. -/
structure Credentials where
  payload : Nat
deriving DecidableEq

/-- Modelled from the spec: `UserSettings.generation` (generation parameters),
opaque to this component. -/
structure Generation where
  payload : Nat
deriving DecidableEq

/-- Modelled from the spec: `UserSettings.export_profiles` (ordered list of
named export configurations), opaque to this component. -/
structure ExportProfiles where
  payload : List Nat
deriving DecidableEq

/-- Modelled from the spec: `UserSettings.ui` (display/language preferences),
opaque to this component. -/
structure UISettings where
  payload : Nat
deriving DecidableEq

/-- Modelled from the spec: `UserSettings.cache` (storage/cache configuration),
opaque to this component. -/
structure CacheSettings where
  payload : Nat
deriving DecidableEq

/-- Modelled from the spec and the default object at
`SettingsPage.tsx:160`: the AI-assistant configuration (enabled flag, service
URL, model identifiers, auto-analyze flag, timeout in seconds). -/
structure AISettings where
  enabled : Bool
  ollama_url : String
  vision_model : String
  coder_model : String
  auto_analyze : Bool
  timeout_seconds : Nat
deriving DecidableEq

/-- A JavaScript-style optional value: a field may be absent/`undefined`,
explicitly `null`, or hold an actual value.  Used for `UserSettings.ai`,
whose absence the component tests by truthiness (`settings.ai || default`). -/
inductive JSOpt (α : Type) where
  | undef
  | null
  | val (a : α)
deriving DecidableEq

/-- JavaScript truthiness of an object-typed optional value: `undefined` and
`null` are falsy, any object is truthy. -/
def JSOpt.truthy {α : Type} : JSOpt α → Bool
  | .val _ => true
  | _ => false

/-- JavaScript `x || d` for an object-typed `x`: the value when truthy,
otherwise the fallback. -/
def JSOpt.orElse {α : Type} : JSOpt α → α → α
  | .val a, _ => a
  | _, d => d

/-- Modelled from the spec: the full `UserSettings` aggregate.  All fields are
always present once loaded, except `ai`, which may be absent. -/
structure UserSettings where
  credentials : Credentials
  generation : Generation
  export_profiles : ExportProfiles
  ui : UISettings
  cache : CacheSettings
  ai : JSOpt AISettings
deriving DecidableEq

/-- Modelled from the spec: `SettingsUpdate`, the all-fields-optional partial
projection of `UserSettings`.  A field absent from the update object is
`none`. -/
structure SettingsUpdate where
  credentials : Option Credentials := none
  generation : Option Generation := none
  export_profiles : Option ExportProfiles := none
  ui : Option UISettings := none
  cache : Option CacheSettings := none
  ai : Option AISettings := none
deriving DecidableEq

/-- Number of top-level fields present in a `SettingsUpdate`. -/
def SettingsUpdate.presentFields (u : SettingsUpdate) : Nat :=
  (if u.credentials.isSome then 1 else 0)
    + (if u.generation.isSome then 1 else 0)
    + (if u.export_profiles.isSome then 1 else 0)
    + (if u.ui.isSome then 1 else 0)
    + (if u.cache.isSome then 1 else 0)
    + (if u.ai.isSome then 1 else 0)

/-- The `TabId` union type of `SettingsPage.tsx` (the `export` member is named
`exportTab` here because `export` is reserved in Lean). -/
inductive TabId where
  | sources
  | generation
  | exportTab
  | ui
  | cache
  | ai
deriving DecidableEq

/-- The component state: the four `useState` hooks of `SettingsPage`
(`activeTab`, `settings`, `loading`, `saving`). -/
structure State where
  activeTab : TabId
  settings : Option UserSettings
  loading : Bool
  saving : Bool
deriving DecidableEq

/-- The state at mount: `useState('sources')`, `useState(null)`,
`useState(true)`, `useState(false)`. -/
def initialState : State :=
  { activeTab := TabId.sources, settings := none, loading := true, saving := false }

/-- An opaque transport/service error thrown by a settings-API call. -/
structure ApiError where
  message : String
deriving DecidableEq

/-- Observable effects the handlers emit besides updating component state. -/
inductive Effect where
  | apiGetRequest
  | apiUpdateRequest (u : SettingsUpdate)
  | alertMsg (m : String)
  | consoleError (m : String)
  | scheduleReload (delayMs : Nat)
deriving DecidableEq

/-- `loadSettings` (`SettingsPage.tsx:34-43`): awaits
`settingsApi.getSettings()`; on success stores the result, on failure logs the
error; `finally` clears the loading flag.  The awaited call's outcome is the
`result` argument. -/
def loadSettings (s : State) (result : Except ApiError UserSettings) :
    State × List Effect :=
  match result with
  | .ok data =>
      ({ s with settings := some data, loading := false }, [Effect.apiGetRequest])
  | .error _ =>
      ({ s with loading := false },
       [Effect.apiGetRequest, Effect.consoleError "Failed to load settings:"])

/-- The `setSaving(true)` at the top of `handleSave` (`SettingsPage.tsx:45`). -/
def saveStart (s : State) : State :=
  { s with saving := true }

/-- `handleSave` (`SettingsPage.tsx:44-64`): sets the saving flag, awaits
`settingsApi.updateSettings(updates)`; on success replaces the settings with
the response, alerts success, and — when `updates.ai !== undefined` — schedules
a `window.location.reload()` after 1000 ms; on failure logs the error and
alerts failure; `finally` clears the saving flag. -/
def handleSave (s : State) (updates : SettingsUpdate)
    (result : Except ApiError UserSettings) : State × List Effect :=
  let s1 := saveStart s
  match result with
  | .ok updated =>
      ({ s1 with settings := some updated, saving := false },
       [Effect.apiUpdateRequest updates,
        Effect.alertMsg "Settings saved successfully!"]
         ++ (if updates.ai.isSome then [Effect.scheduleReload 1000] else []))
  | .error _ =>
      ({ s1 with saving := false },
       [Effect.apiUpdateRequest updates,
        Effect.consoleError "Failed to save settings:",
        Effect.alertMsg "Failed to save settings"])

/-- Tab selection: the sidebar button's `onClick={() => setActiveTab(tab.id)}`
(`SettingsPage.tsx:113`).  It only writes the `activeTab` hook and emits no
effect. -/
def selectTab (s : State) (id : TabId) : State × List Effect :=
  ({ s with activeTab := id }, [])

/-- The hard-coded AI default object from `SettingsPage.tsx:160`. -/
def aiDefault : AISettings :=
  { enabled := false
    ollama_url := "http://localhost:11434"
    vision_model := "qwen3-vl:235b-cloud"
    coder_model := "qwen3-coder:480b-cloud"
    auto_analyze := false
    timeout_seconds := 120 }

/-- The `onSave` callback the `sources` tab receives:
`(credentials) => handleSave({ credentials })`. -/
def sourcesOnSave (credentials : Credentials) : SettingsUpdate :=
  { credentials := some credentials }

/-- The `onSave` callback the `generation` tab receives:
`(generation) => handleSave({ generation })`. -/
def generationOnSave (generation : Generation) : SettingsUpdate :=
  { generation := some generation }

/-- The `onSave` callback the `export` tab receives:
`(export_profiles) => handleSave({ export_profiles })`. -/
def exportOnSave (export_profiles : ExportProfiles) : SettingsUpdate :=
  { export_profiles := some export_profiles }

/-- The `onSave` callback the `ui` tab receives:
`(ui) => handleSave({ ui })`. -/
def uiOnSave (ui : UISettings) : SettingsUpdate :=
  { ui := some ui }

/-- The `onSave` callback the `cache` tab receives:
`(cache) => handleSave({ cache })`. -/
def cacheOnSave (cache : CacheSettings) : SettingsUpdate :=
  { cache := some cache }

/-- The `onSave` callback the `ai` tab receives:
`(ai) => handleSave({ ai })`. -/
def aiOnSave (ai : AISettings) : SettingsUpdate :=
  { ai := some ai }

/-- The editor rendered in the content area, with the props it receives. -/
inductive RenderedTab where
  | sourcesTab (credentials : Credentials) (saving : Bool)
  | generationTab (generation : Generation) (saving : Bool)
  | exportProfilesTab (profiles : ExportProfiles) (saving : Bool)
  | uiPreferencesTab (ui : UISettings) (saving : Bool)
  | aiTab (settings : AISettings) (saving : Bool)
  | cacheStorageTab (cache : CacheSettings) (saving : Bool)
deriving DecidableEq

/-- Which editor the content area mounts for the active tab, and the props it
is passed (`SettingsPage.tsx:128-180`).  The `ai` tab receives
`settings.ai || aiDefault`. -/
def renderTab (tab : TabId) (st : UserSettings) (saving : Bool) : RenderedTab :=
  match tab with
  | .sources => RenderedTab.sourcesTab st.credentials saving
  | .generation => RenderedTab.generationTab st.generation saving
  | .exportTab => RenderedTab.exportProfilesTab st.export_profiles saving
  | .ui => RenderedTab.uiPreferencesTab st.ui saving
  | .ai => RenderedTab.aiTab (st.ai.orElse aiDefault) saving
  | .cache => RenderedTab.cacheStorageTab st.cache saving

/-- The sidebar `tabs` array (`SettingsPage.tsx:76-83`), in source order. -/
def tabsOrder : List TabId :=
  [TabId.sources, TabId.generation, TabId.exportTab, TabId.ai, TabId.ui,
   TabId.cache]

/-- The rendered output: either the bare spinner overlay or the full dialog
page (active tab, mounted editor, sidebar tab buttons). -/
inductive View where
  | spinner
  | page (activeTab : TabId) (content : RenderedTab) (sidebarTabs : List TabId)
deriving DecidableEq

/-- The component's render (`SettingsPage.tsx:66-185`): when
`loading || !settings` it returns only the spinner; otherwise the dialog with
the sidebar buttons and the active tab's editor. -/
def render (s : State) : View :=
  match s.settings with
  | none => View.spinner
  | some st =>
      if s.loading then View.spinner
      else View.page s.activeTab (renderTab s.activeTab st s.saving) tabsOrder

/-- The tab buttons a view offers the user (the spinner offers none). -/
def sidebarTabsOf : View → List TabId
  | View.spinner => []
  | View.page _ _ tabs => tabs

/-- The delays of the reloads scheduled among a list of effects. -/
def scheduledReloads (effs : List Effect) : List Nat :=
  effs.filterMap fun e =>
    match e with
    | Effect.scheduleReload d => some d
    | _ => none

/-- The `SettingsUpdate` bodies sent to the persistence service among a list
of effects. -/
def sentUpdates (effs : List Effect) : List SettingsUpdate :=
  effs.filterMap fun e =>
    match e with
    | Effect.apiUpdateRequest u => some u
    | _ => none

/-- A concrete `UserSettings` used by the witness theorems (no `ai` block). -/
def demoSettings : UserSettings :=
  { credentials := { payload := 1 }
    generation := { payload := 2 }
    export_profiles := { payload := [3] }
    ui := { payload := 4 }
    cache := { payload := 5 }
    ai := JSOpt.undef }

/-- A concrete loaded state used by the witness theorems. -/
def demoState : State :=
  { activeTab := TabId.sources, settings := some demoSettings,
    loading := false, saving := false }

/-- C1: a full-environment reload is scheduled exactly when the save succeeds
and its `SettingsUpdate` contains the `ai` field — a presence check on the
update (`updates.ai !== undefined`), independent of the prior state `s` and of
the `ai` value — and it is scheduled with the fixed 1000 ms delay; a failed
save, or a successful save whose update lacks `ai`, schedules none. -/
theorem C1_reload_iff_successful_ai_save (s : State) (u : SettingsUpdate)
    (r : Except ApiError UserSettings) :
    scheduledReloads (handleSave s u r).2 =
      match r with
      | .ok _ => if u.ai.isSome then [1000] else []
      | .error _ => [] := by
  cases r <;> simp only [handleSave, scheduledReloads] <;>
    cases h : u.ai.isSome <;> simp [h, List.filterMap]

/-- C2: if the persistence call of a save throws, the store still holds the
previously loaded `UserSettings` unchanged, the saving flag is cleared, a
failure notification is surfaced, and the error is logged; `handleSave` is a
total function, so the error never propagates uncaught. -/
theorem C2_save_failure_preserves_settings (s : State) (S : UserSettings)
    (u : SettingsUpdate) (e : ApiError) (h : s.settings = some S) :
    (handleSave s u (Except.error e)).1.settings = some S
      ∧ (handleSave s u (Except.error e)).1.saving = false
      ∧ Effect.alertMsg "Failed to save settings" ∈ (handleSave s u (Except.error e)).2
      ∧ Effect.consoleError "Failed to save settings:" ∈ (handleSave s u (Except.error e)).2 := by
  refine ⟨?_, rfl, ?_, ?_⟩
  · simpa [handleSave, saveStart] using h
  · simp [handleSave]
  · simp [handleSave]

/-- Witness for C2 at a concrete loaded state, update and error. -/
theorem C2_witness :
    (handleSave demoState { ai := some aiDefault } (Except.error { message := "boom" })).1.settings
        = some demoSettings
      ∧ (handleSave demoState { ai := some aiDefault } (Except.error { message := "boom" })).1.saving = false
      ∧ Effect.alertMsg "Failed to save settings"
          ∈ (handleSave demoState { ai := some aiDefault } (Except.error { message := "boom" })).2
      ∧ Effect.consoleError "Failed to save settings:"
          ∈ (handleSave demoState { ai := some aiDefault } (Except.error { message := "boom" })).2 :=
  C2_save_failure_preserves_settings demoState demoSettings { ai := some aiDefault }
    { message := "boom" } rfl

/-- C3: a save first sets the saving flag, sends exactly the given
`SettingsUpdate` to the persistence service, and on success stores the
service's response verbatim as the entire local `UserSettings` — whatever the
prior state and whatever partial update was sent, the post-save store equals
the server response, never a client-side merge. -/
theorem C3_success_replaces_with_response (s : State) (u : SettingsUpdate) :
    (saveStart s).saving = true
      ∧ (∀ r, sentUpdates (handleSave s u r).2 = [u])
      ∧ (∀ resp, (handleSave s u (Except.ok resp)).1.settings = some resp) := by
  refine ⟨rfl, ?_, fun resp => rfl⟩
  intro r
  cases r <;> simp only [handleSave, sentUpdates] <;>
    cases h : u.ai.isSome <;> simp [h, List.filterMap]

/-- C4: a failed initial fetch logs the error, resolves the load attempt (the
loading flag is cleared), leaves the settings unset, and the subsequent render
is still the blocked spinner — never tab content over null data; `loadSettings`
is total, so the error never propagates uncaught.  The first conjunct shows the
failure branch changes nothing but the loading flag, for any pre-state. -/
theorem C4_load_failure_containment (e : ApiError) :
    (∀ s, (loadSettings s (Except.error e)).1 = { s with loading := false })
      ∧ (loadSettings initialState (Except.error e)).2
          = [Effect.apiGetRequest, Effect.consoleError "Failed to load settings:"]
      ∧ (loadSettings initialState (Except.error e)).1.settings = none
      ∧ render (loadSettings initialState (Except.error e)).1 = View.spinner := by
  exact ⟨fun s => rfl, rfl, rfl, rfl⟩

/-- C5: each of the six tab save callbacks constructs a `SettingsUpdate` with
exactly one present top-level field, namely the field for that tab's domain. -/
theorem C5_partial_update_isolation
    (c : Credentials) (g : Generation) (ep : ExportProfiles) (u : UISettings)
    (k : CacheSettings) (a : AISettings) :
    ((sourcesOnSave c).presentFields = 1 ∧ (sourcesOnSave c).credentials = some c)
      ∧ ((generationOnSave g).presentFields = 1 ∧ (generationOnSave g).generation = some g)
      ∧ ((exportOnSave ep).presentFields = 1 ∧ (exportOnSave ep).export_profiles = some ep)
      ∧ ((uiOnSave u).presentFields = 1 ∧ (uiOnSave u).ui = some u)
      ∧ ((cacheOnSave k).presentFields = 1 ∧ (cacheOnSave k).cache = some k)
      ∧ ((aiOnSave a).presentFields = 1 ∧ (aiOnSave a).ai = some a) := by
  simp [sourcesOnSave, generationOnSave, exportOnSave, uiOnSave, cacheOnSave,
    aiOnSave, SettingsUpdate.presentFields]

/-- C6: when the loaded `UserSettings` has no `ai` field, rendering the `ai`
tab passes the editor exactly the hard-coded default object; and no code path
other than an explicit save sends an update to the persistence service —
rendering is pure, loading and tab selection send no update, and a save sends
exactly the update the user triggered. -/
theorem C6_ai_default_fallback (st : UserSettings) (sv : Bool)
    (h : st.ai = JSOpt.undef) :
    renderTab TabId.ai st sv = RenderedTab.aiTab aiDefault sv
      ∧ (∀ s r, sentUpdates (loadSettings s r).2 = [])
      ∧ (∀ s id, sentUpdates (selectTab s id).2 = [])
      ∧ (∀ s u r, sentUpdates (handleSave s u r).2 = [u]) := by
  refine ⟨by simp [renderTab, h, JSOpt.orElse], ?_, fun s id => rfl, ?_⟩
  · intro s r
    cases r <;> simp [loadSettings, sentUpdates, List.filterMap]
  · intro s u r
    cases r <;> simp only [handleSave, sentUpdates] <;>
      cases h : u.ai.isSome <;> simp [h, List.filterMap]

/-- Witness for C6 at a concrete `UserSettings` whose `ai` field is absent. -/
theorem C6_witness :
    renderTab TabId.ai demoSettings false = RenderedTab.aiTab aiDefault false
      ∧ (∀ s r, sentUpdates (loadSettings s r).2 = [])
      ∧ (∀ s id, sentUpdates (selectTab s id).2 = [])
      ∧ (∀ s u r, sentUpdates (handleSave s u r).2 = [u]) :=
  C6_ai_default_fallback demoSettings false rfl

/-- C7: the active tab defaults to `sources` at mount; tab selection is a pure
record update of the active-tab state that always succeeds and emits no
effect (in particular no network call); and selecting the already-active tab
leaves the state unchanged. -/
theorem C7_tab_selection_pure_idempotent (s : State) (id : TabId)
    (h : s.activeTab = id) :
    initialState.activeTab = TabId.sources
      ∧ (∀ t j, (selectTab t j).1 = { t with activeTab := j } ∧ (selectTab t j).2 = [])
      ∧ (selectTab s id).1 = s := by
    refine ⟨rfl, fun t j => ⟨rfl, rfl⟩, ?_⟩
    cases s
    cases h
    rfl

/-- Witness for C7: selecting the already-active `sources` tab at mount is a
no-op. -/
theorem C7_witness :
    initialState.activeTab = TabId.sources
      ∧ (∀ t j, (selectTab t j).1 = { t with activeTab := j } ∧ (selectTab t j).2 = [])
      ∧ (selectTab initialState TabId.sources).1 = initialState :=
  C7_tab_selection_pure_idempotent initialState TabId.sources rfl

/-- C8 counterexample: at the mount state — the state in which the initial
load is in flight (`loading = true`) — the component renders only the spinner,
which offers no sidebar tab buttons, so tab switching is not available to the
user during an in-flight load. -/
theorem C8_counterexample :
    initialState.loading = true
      ∧ render initialState = View.spinner
      ∧ sidebarTabsOf (render initialState) = [] := by
  exact ⟨rfl, rfl, rfl⟩

/-- C8 (amended): while a save is in flight the UI remains interactive — with
settings loaded and loading resolved, the dialog renders all six sidebar tab
buttons whatever the saving flag, and `selectTab` remains a total, effect-free
transition; but while a load is in flight (`loading = true`) the entire dialog
is replaced by the spinner, which renders no tab buttons, so tab switching is
not reachable from the UI during a load. -/
theorem C8_interactive_during_save (s : State) (st : UserSettings)
    (h1 : s.settings = some st) (h2 : s.loading = false) :
    sidebarTabsOf (render s) = tabsOrder
      ∧ (∀ id, (selectTab s id).1.activeTab = id ∧ (selectTab s id).2 = [])
      ∧ (∀ t, t.loading = true → render t = View.spinner) := by
  refine ⟨?_, fun id => ⟨rfl, rfl⟩, ?_⟩
  · simp [render, h1, h2, sidebarTabsOf]
  · intro t ht
    cases hs : t.settings <;> simp [render, hs, ht]

/-- Witness for C8 (amended) at a concrete loaded state with a save in
flight. -/
theorem C8_witness :
    sidebarTabsOf (render { demoState with saving := true }) = tabsOrder
      ∧ (∀ id, (selectTab { demoState with saving := true } id).1.activeTab = id
          ∧ (selectTab { demoState with saving := true } id).2 = [])
      ∧ (∀ t, t.loading = true → render t = View.spinner) :=
  C8_interactive_during_save { demoState with saving := true } demoSettings rfl rfl

/-- C9: the component renders the bare spinner exactly when loading is still
true or the settings aggregate is null; any non-spinner render therefore comes
from a loaded, non-null `UserSettings`, from which the active tab's editor
draws its slice — no rendered path dereferences a null settings aggregate. -/
theorem C9_no_null_dereference (s : State) :
    (render s = View.spinner ↔ (s.loading = true ∨ s.settings = none))
      ∧ (∀ st, s.settings = some st → s.loading = false →
          render s = View.page s.activeTab (renderTab s.activeTab st s.saving) tabsOrder) := by
  constructor
  · cases hs : s.settings <;> cases hl : s.loading <;> simp [render, hs, hl]
  · intro st hst hl
    simp [render, hst, hl]

/-- Witness for C9: at mount the render is the spinner, by the loading
direction of the equivalence. -/
theorem C9_witness : render initialState = View.spinner :=
  (C9_no_null_dereference initialState).1.mpr (Or.inl rfl)

/-- C10: the AI-tab fallback is selected by truthiness — the falsy `ai`
values are exactly absent/`undefined` and `null`, and for those the editor
receives the hard-coded default object, while any actual `ai` object (even one
equal to the defaults) is passed through unchanged. -/
theorem C10_ai_fallback_truthiness (st : UserSettings) (sv : Bool) :
    (st.ai.truthy = false ↔ (st.ai = JSOpt.undef ∨ st.ai = JSOpt.null))
      ∧ ((st.ai = JSOpt.undef ∨ st.ai = JSOpt.null) →
          renderTab TabId.ai st sv = RenderedTab.aiTab aiDefault sv)
      ∧ (∀ a, st.ai = JSOpt.val a → renderTab TabId.ai st sv = RenderedTab.aiTab a sv) := by
  refine ⟨?_, ?_, ?_⟩
  · cases h : st.ai <;> simp [JSOpt.truthy, h]
  · rintro (h | h) <;> simp [renderTab, h, JSOpt.orElse]
  · intro a h
    simp [renderTab, h, JSOpt.orElse]

/-- Witness for C10: with `ai` explicitly `null` the editor receives the
default, and an `ai` object holding exactly the default values is passed
through. -/
theorem C10_witness :
    renderTab TabId.ai { demoSettings with ai := JSOpt.null } false
        = RenderedTab.aiTab aiDefault false
      ∧ renderTab TabId.ai { demoSettings with ai := JSOpt.val aiDefault } false
        = RenderedTab.aiTab aiDefault false :=
  ⟨(C10_ai_fallback_truthiness { demoSettings with ai := JSOpt.null } false).2.1 (Or.inr rfl),
   (C10_ai_fallback_truthiness { demoSettings with ai := JSOpt.val aiDefault } false).2.2
     aiDefault rfl⟩
